import Mathlib

/-!
Shallow embedding of the Dev-connect server (src/index.js): the vote-toggle
logic of `PATCH /posts/:id/vote`, the authorization-gated mutation handlers
(`DELETE /posts/:id`, `DELETE /comments/:id`, `PATCH /users/admin`,
`PATCH /users/payment-status`) and user registration (`POST /users`).

MongoDB collections are modelled as Lean lists of documents; `findOne`
returns the first match (`List.find?`), `updateOne` updates the first match
and reports whether it actually changed (`modifiedCount`), `deleteOne`
removes the first match.  The verified Firebase identity attached by the
`verifyToken` middleware is modelled as the actor's email string.  A JS
falsy body field (absent or the empty string) is modelled as `""`.
-/

namespace DevConnect

/-- User document of the `users` collection (src/index.js lines 76-83). -/
structure User where
  name : String
  email : String
  photoURL : String
  role : String
  paymentStatus : String
  createdAt : Nat
deriving DecidableEq, Repr

/-- Post document of the `posts` collection, restricted to the fields the
vote and delete handlers read. -/
structure Post where
  id : Nat
  authorEmail : String
  upVote : List String
  downVote : List String
deriving DecidableEq, Repr

/-- Comment document of the `comments` collection, restricted to the fields
the delete handler reads. -/
structure Comment where
  id : Nat
  postId : Nat
  email : String
  message : String
deriving DecidableEq, Repr

/-- Model of MongoDB `deleteOne`: remove the first matching document. -/
def removeFirst (p : α → Bool) : List α → List α
  | [] => []
  | x :: xs => if p x then xs else x :: removeFirst p xs

/-- Update the first document matching `p` by `f`, leaving the rest alone. -/
def updateFirst (p : α → Bool) (f : α → α) : List α → List α
  | [] => []
  | x :: xs => if p x then f x :: xs else x :: updateFirst p f xs

/-- Model of MongoDB `updateOne` with a `$set`: the new collection together
with `modifiedCount`, which is `1` exactly when a document matched and the
update actually changed it. -/
def mongoUpdateOne [DecidableEq α] (p : α → Bool) (f : α → α) (l : List α) :
    List α × Nat :=
  match l.find? p with
  | none => (l, 0)
  | some x => if f x = x then (l, 0) else (updateFirst p f l, 1)

/-- Responses of `PATCH /posts/:id/vote`. -/
inductive VoteResp where
  | postNotFound
  | counts (upVoteCount downVoteCount : Nat)
deriving DecidableEq, Repr

/-- Responses of the two delete handlers. -/
inductive DeleteResp where
  | notFound
  | forbidden
  | success
deriving DecidableEq, Repr

/-- Responses of `PATCH /users/admin`. -/
inductive AdminResp where
  | missingFields
  | forbiddenAdminsOnly
  | userNotFound
  | alreadyHasRole
  | updated
  | updateFailed
deriving DecidableEq, Repr

/-- Responses of `POST /users`. -/
inductive RegisterResp where
  | emailRequired
  | alreadyExists
  | created
deriving DecidableEq, Repr

/-- Responses of `PATCH /users/payment-status`. -/
inductive PayResp where
  | emailRequired
  | updated
  | notFoundOrPaid
deriving DecidableEq, Repr

/-- Vote toggle of `PATCH /posts/:id/vote` (src/index.js lines 233-247):
for `"upvote"`, filter the actor out of `downVote`, then remove them from
`upVote` if present, else push them; symmetrically for `"downvote"`; any
other `voteType` falls through both branches and changes nothing. -/
def voteTransition (voteType userEmail : String) (upVote downVote : List String) :
    List String × List String :=
  if voteType = "upvote" then
    if userEmail ∈ upVote then
      (upVote.filter (fun email => email ≠ userEmail),
       downVote.filter (fun email => email ≠ userEmail))
    else
      (upVote ++ [userEmail],
       downVote.filter (fun email => email ≠ userEmail))
  else if voteType = "downvote" then
    if userEmail ∈ downVote then
      (upVote.filter (fun email => email ≠ userEmail),
       downVote.filter (fun email => email ≠ userEmail))
    else
      (upVote.filter (fun email => email ≠ userEmail),
       downVote ++ [userEmail])
  else (upVote, downVote)

/-- Handler of `PATCH /posts/:id/vote` (src/index.js lines 219-262): look
the post up, apply `voteTransition`, persist the new lists with `$set`, and
respond with the lengths of the two new lists. -/
def voteHandler (posts : List Post) (id : Nat) (voteType userEmail : String) :
    List Post × VoteResp :=
  match posts.find? (fun p => p.id = id) with
  | none => (posts, VoteResp.postNotFound)
  | some post =>
      let r := voteTransition voteType userEmail post.upVote post.downVote
      (updateFirst (fun p => p.id = id)
         (fun p => { p with upVote := r.1, downVote := r.2 }) posts,
       VoteResp.counts r.1.length r.2.length)

/-- Voter removal written from the spec's words (step 1 of the Vote Ledger
algorithm): remove the actor's email from a set. -/
def removeVoter (userEmail : String) (l : List String) : List String :=
  l.filter (fun email => email ≠ userEmail)

/-- Toggle written from the spec's words (steps 2-3 of the Vote Ledger
algorithm): remove the actor's email if present, else add it. -/
def toggleVoter (userEmail : String) (l : List String) : List String :=
  if userEmail ∈ l then removeVoter userEmail l else l ++ [userEmail]

/-- Vote Ledger transition written from the spec's three-step description
(section 4.1), for comparison with the code's `voteTransition`: remove the
actor from the opposite set unconditionally and toggle them in the target
set. -/
def voteTransitionSpec (voteType userEmail : String) (upVote downVote : List String) :
    List String × List String :=
  if voteType = "upvote" then
    (toggleVoter userEmail upVote, removeVoter userEmail downVote)
  else
    (removeVoter userEmail upVote, toggleVoter userEmail downVote)

/-- Handler of `DELETE /posts/:id` (src/index.js lines 181-216): look the
post up, allow only the author, then `deleteOne` and report success when
`deletedCount` is 1. -/
def deletePostHandler (posts : List Post) (actorEmail : String) (id : Nat) :
    List Post × DeleteResp :=
  match posts.find? (fun p => p.id = id) with
  | none => (posts, DeleteResp.notFound)
  | some post =>
      if actorEmail ≠ post.authorEmail then
        (posts, DeleteResp.forbidden)
      else
        let deletedCount := if posts.any (fun p => p.id = id) then 1 else 0
        if deletedCount = 1 then
          (removeFirst (fun p => p.id = id) posts, DeleteResp.success)
        else
          (removeFirst (fun p => p.id = id) posts, DeleteResp.notFound)

/-- Role lookup used by the admin checks: `findOne({email})` followed by
`requester?.role === "admin"` (absent user counts as not admin). -/
def isAdminUser (users : List User) (email : String) : Bool :=
  match users.find? (fun u => u.email = email) with
  | some u => u.role = "admin"
  | none => false

/-- Handler of `DELETE /comments/:id` (src/index.js lines 335-381): look the
comment up, allow the owner or an admin, then `deleteOne` and report success
when `deletedCount` is 1. -/
def deleteCommentHandler (users : List User) (comments : List Comment)
    (actorEmail : String) (id : Nat) : List Comment × DeleteResp :=
  match comments.find? (fun c => c.id = id) with
  | none => (comments, DeleteResp.notFound)
  | some comment =>
      if actorEmail = comment.email ∨ isAdminUser users actorEmail = true then
        let deletedCount := if comments.any (fun c => c.id = id) then 1 else 0
        if deletedCount = 1 then
          (removeFirst (fun c => c.id = id) comments, DeleteResp.success)
        else
          (removeFirst (fun c => c.id = id) comments, DeleteResp.notFound)
      else
        (comments, DeleteResp.forbidden)

/-- Handler of `PATCH /users/admin` (src/index.js lines 384-437): body
guard, then admin check on the requester, then target lookup, then the
redundant-update guard, then `updateOne` branching on `modifiedCount`. -/
def usersAdminHandler (users : List User) (requesterEmail email role : String) :
    List User × AdminResp :=
  if email = "" ∨ role = "" then (users, AdminResp.missingFields)
  else
    match users.find? (fun u => u.email = requesterEmail) with
    | none => (users, AdminResp.forbiddenAdminsOnly)
    | some requester =>
        if requester.role ≠ "admin" then (users, AdminResp.forbiddenAdminsOnly)
        else
          match users.find? (fun u => u.email = email) with
          | none => (users, AdminResp.userNotFound)
          | some user =>
              if user.role = role then (users, AdminResp.alreadyHasRole)
              else
                let r := mongoUpdateOne (fun u => u.email = email)
                  (fun u => { u with role := role }) users
                if r.2 > 0 then (r.1, AdminResp.updated)
                else (r.1, AdminResp.updateFailed)

/-- Handler of `POST /users` (src/index.js lines 62-93): require an email,
answer `User already exists` without touching the store when the email is
known, else insert a fresh document with role `user` and paymentStatus
`unpaid`. -/
def registerHandler (users : List User) (name email photoURL : String) (now : Nat) :
    List User × RegisterResp :=
  if email = "" then (users, RegisterResp.emailRequired)
  else
    match users.find? (fun u => u.email = email) with
    | some _ => (users, RegisterResp.alreadyExists)
    | none =>
        (users ++ [{ name := name, email := email, photoURL := photoURL,
                     role := "user", paymentStatus := "unpaid", createdAt := now }],
         RegisterResp.created)

/-- Handler of `PATCH /users/payment-status` (src/index.js lines 465-493):
require a body email, `updateOne({email}, {$set: {paymentStatus: "paid"}})`,
and report failure when `modifiedCount` is 0.  The verified caller identity
`callerEmail` is attached by the middleware but never read. -/
def paymentStatusHandler (users : List User) (callerEmail : String) (email : String) :
    List User × PayResp :=
  if email = "" then (users, PayResp.emailRequired)
  else
    let r := mongoUpdateOne (fun u => u.email = email)
      (fun u => { u with paymentStatus := "paid" }) users
    if r.2 > 0 then (r.1, PayResp.updated)
    else (r.1, PayResp.notFoundOrPaid)

/-- Disjointness of the two vote lists, as sets of emails. -/
def DisjointVotes (upVote downVote : List String) : Prop :=
  ∀ x ∈ upVote, x ∉ downVote

/-- Applying the vote transition twice with the same actor and voteType. -/
def voteTwice (voteType userEmail : String) (upVote downVote : List String) :
    List String × List String :=
  let r := voteTransition voteType userEmail upVote downVote
  voteTransition voteType userEmail r.1 r.2

/-- A sequence of vote toggles, each op being `(voteType, actorEmail)`. -/
def voteSeq (ops : List (String × String)) (upVote downVote : List String) :
    List String × List String :=
  ops.foldl (fun st op => voteTransition op.1 op.2 st.1 st.2) (upVote, downVote)

/-! Helper lemmas about the list operations the handlers use. -/

theorem mem_filter_ne {x a : String} {l : List String} :
    x ∈ l.filter (fun e => e ≠ a) ↔ x ∈ l ∧ x ≠ a := by
  simp

theorem filter_ne_eq_self {a : String} {l : List String} (h : a ∉ l) :
    l.filter (fun e => e ≠ a) = l := by
  apply List.filter_eq_self.mpr
  intro b hb
  simp
  rintro rfl
  exact h hb

theorem updateFirst_eq_self (p : α → Bool) (f : α → α) (l : List α) (x : α)
    (hf : l.find? p = some x) (hx : f x = x) : updateFirst p f l = l := by
  induction l with
  | nil => simp at hf
  | cons y ys ih =>
    by_cases hy : p y = true
    · rw [List.find?_cons_of_pos _ hy] at hf
      injection hf with h
      subst h
      simp [updateFirst, hy, hx]
    · rw [List.find?_cons_of_neg _ hy] at hf
      simp [updateFirst, hy, ih hf]

theorem any_of_find? {p : α → Bool} {l : List α} {x : α} (hf : l.find? p = some x) :
    l.any p = true :=
  List.any_eq_true.mpr ⟨x, List.mem_of_find?_eq_some hf, List.find?_some hf⟩

theorem forall_ne_of_not_mem {a : String} {l : List String} (h : a ∉ l) :
    ∀ b ∈ l, ¬b = a :=
  fun _ hb hba => h (hba ▸ hb)

theorem voteTransition_eq_spec (vt a : String) (up down : List String)
    (hvt : vt = "upvote" ∨ vt = "downvote") :
    voteTransition vt a up down = voteTransitionSpec vt a up down := by
  rcases hvt with rfl | rfl
  · by_cases h : a ∈ up <;>
      simp [voteTransition, voteTransitionSpec, toggleVoter, removeVoter, h]
  · by_cases h : a ∈ down <;>
      simp [voteTransition, voteTransitionSpec, toggleVoter, removeVoter, h]

/-- C1: for an existing post and voteType `"upvote"` or `"downvote"`, the
code's vote transition equals the spec's three-step description (remove the
actor from the opposite list unconditionally, then toggle them in the target
list), and the handler persists the new lists and reports their lengths as
`{upVoteCount, downVoteCount}`. -/
theorem vote_route_follows_ledger_spec (posts : List Post) (id : Nat) (vt a : String)
    (post : Post) (hvt : vt = "upvote" ∨ vt = "downvote")
    (hfind : posts.find? (fun p => p.id = id) = some post) :
    voteTransition vt a post.upVote post.downVote =
      voteTransitionSpec vt a post.upVote post.downVote ∧
    voteHandler posts id vt a =
      (updateFirst (fun p => p.id = id)
         (fun p => { p with
            upVote := (voteTransitionSpec vt a post.upVote post.downVote).1,
            downVote := (voteTransitionSpec vt a post.upVote post.downVote).2 }) posts,
       VoteResp.counts (voteTransitionSpec vt a post.upVote post.downVote).1.length
         (voteTransitionSpec vt a post.upVote post.downVote).2.length) := by
  have h := voteTransition_eq_spec vt a post.upVote post.downVote hvt
  refine ⟨h, ?_⟩
  unfold voteHandler
  rw [hfind]
  simp [h]

/-- Witness for C1: the spec's own scenario, an upvote on an empty post. -/
theorem vote_route_follows_ledger_spec_witness :
    (("upvote" : String) = "upvote" ∨ ("upvote" : String) = "downvote") ∧
    ([({ id := 1, authorEmail := "o@x.com", upVote := [], downVote := [] } : Post)].find?
        (fun p => p.id = 1) =
      some { id := 1, authorEmail := "o@x.com", upVote := [], downVote := [] }) ∧
    voteHandler [{ id := 1, authorEmail := "o@x.com", upVote := [], downVote := [] }]
        1 "upvote" "a@x.com" =
      (updateFirst (fun p => p.id = 1)
         (fun p => { p with
            upVote := (voteTransitionSpec "upvote" "a@x.com" [] []).1,
            downVote := (voteTransitionSpec "upvote" "a@x.com" [] []).2 })
         [{ id := 1, authorEmail := "o@x.com", upVote := [], downVote := [] }],
       VoteResp.counts (voteTransitionSpec "upvote" "a@x.com" [] []).1.length
         (voteTransitionSpec "upvote" "a@x.com" [] []).2.length) :=
  ⟨Or.inl rfl, rfl,
    (vote_route_follows_ledger_spec
      [{ id := 1, authorEmail := "o@x.com", upVote := [], downVote := [] }]
      1 "upvote" "a@x.com"
      { id := 1, authorEmail := "o@x.com", upVote := [], downVote := [] }
      (Or.inl rfl) rfl).2⟩

theorem voteTransition_disjoint (vt a : String) (up down : List String)
    (h : DisjointVotes up down) :
    DisjointVotes (voteTransition vt a up down).1 (voteTransition vt a up down).2 := by
  unfold DisjointVotes voteTransition
  split_ifs with h1 h2 h3 h4
  · intro x hx hx'
    simp at hx hx'
    exact h x hx.1 hx'.1
  · intro x hx hx'
    simp at hx hx'
    rcases hx with hxu | rfl
    · exact h x hxu hx'.1
    · exact hx'.2 rfl
  · intro x hx hx'
    simp at hx hx'
    exact h x hx.1 hx'.1
  · intro x hx hx'
    simp at hx hx'
    rcases hx' with hxd | rfl
    · exact h x hx.1 hxd
    · exact hx.2 rfl
  · intro x hx hx'
    exact h x hx hx'

theorem voteSeq_disjoint (ops : List (String × String)) (up down : List String)
    (h : DisjointVotes up down) :
    DisjointVotes (voteSeq ops up down).1 (voteSeq ops up down).2 := by
  induction ops generalizing up down with
  | nil => exact h
  | cons op rest ih =>
    exact ih _ _ (voteTransition_disjoint op.1 op.2 up down h)

/-- C2: starting from disjoint vote lists, every vote operation (any
voteType) preserves disjointness and leaves the actor's email in at most one
of the two lists, and any sequence of toggles preserves disjointness. -/
theorem vote_disjointness_invariant (up down : List String)
    (h : DisjointVotes up down) :
    (∀ vt a,
       DisjointVotes (voteTransition vt a up down).1 (voteTransition vt a up down).2 ∧
       ¬(a ∈ (voteTransition vt a up down).1 ∧ a ∈ (voteTransition vt a up down).2)) ∧
    (∀ ops, DisjointVotes (voteSeq ops up down).1 (voteSeq ops up down).2) := by
  refine ⟨fun vt a => ?_, fun ops => voteSeq_disjoint ops up down h⟩
  have hd := voteTransition_disjoint vt a up down h
  exact ⟨hd, fun hb => hd a hb.1 hb.2⟩

/-- Witness for C2 at concrete disjoint lists and a two-toggle sequence. -/
theorem vote_disjointness_invariant_witness :
    DisjointVotes ["u@x.com"] ["d@x.com"] ∧
    DisjointVotes (voteTransition "upvote" "a@x.com" ["u@x.com"] ["d@x.com"]).1
      (voteTransition "upvote" "a@x.com" ["u@x.com"] ["d@x.com"]).2 ∧
    ¬("a@x.com" ∈ (voteTransition "upvote" "a@x.com" ["u@x.com"] ["d@x.com"]).1 ∧
      "a@x.com" ∈ (voteTransition "upvote" "a@x.com" ["u@x.com"] ["d@x.com"]).2) ∧
    DisjointVotes
      (voteSeq [("upvote", "a@x.com"), ("downvote", "b@x.com")] ["u@x.com"] ["d@x.com"]).1
      (voteSeq [("upvote", "a@x.com"), ("downvote", "b@x.com")] ["u@x.com"] ["d@x.com"]).2 := by
  have hd : DisjointVotes ["u@x.com"] ["d@x.com"] := by
    intro x hx
    simp at hx
    subst hx
    decide
  exact ⟨hd, ((vote_disjointness_invariant _ _ hd).1 "upvote" "a@x.com").1,
    ((vote_disjointness_invariant _ _ hd).1 "upvote" "a@x.com").2,
    (vote_disjointness_invariant _ _ hd).2 _⟩

/-- C3 counterexample: with the actor initially in the opposite list, two
successive upvotes end at `([], [])`, not at the original `([], [a])`: the
unconditional retraction of the stale downvote is never undone, so the vote
toggle is not its own inverse as claimed. -/
theorem vote_toggle_twice_not_inverse :
    voteTwice "upvote" "a@x.com" [] ["a@x.com"] = ([], []) ∧
    (([], []) : List String × List String) ≠ ([], ["a@x.com"]) := by decide

/-- C3 amended: applying the vote operation twice with the same actor and
voteType restores the vote lists up to set membership, provided the actor's
email is not in the opposite list beforehand (the target list is restored as
a set; the opposite list is literally unchanged). -/
theorem vote_toggle_twice_inverse (vt a : String) (up down : List String) :
    (vt = "upvote" → a ∉ down →
       (voteTwice vt a up down).1.toFinset = up.toFinset ∧
       (voteTwice vt a up down).2 = down) ∧
    (vt = "downvote" → a ∉ up →
       (voteTwice vt a up down).1 = up ∧
       (voteTwice vt a up down).2.toFinset = down.toFinset) := by
  constructor
  · rintro rfl had
    have hd : down.filter (fun e => e ≠ a) = down := filter_ne_eq_self had
    by_cases hau : a ∈ up
    · have h1 : voteTransition "upvote" a up down =
          (up.filter (fun e => e ≠ a), down) := by
        simp [voteTransition, hau]
        exact forall_ne_of_not_mem had
      have hau2 : a ∉ up.filter (fun e => e ≠ a) := by
        rw [mem_filter_ne]
        rintro ⟨-, hne⟩
        exact hne rfl
      have h2 : voteTwice "upvote" a up down =
          (up.filter (fun e => e ≠ a) ++ [a], down) := by
        unfold voteTwice
        rw [h1]
        simp [voteTransition, hau2]
        exact forall_ne_of_not_mem had
      rw [h2]
      refine ⟨?_, rfl⟩
      ext x
      simp [mem_filter_ne]
      constructor
      · rintro (⟨hx, -⟩ | rfl)
        · exact hx
        · exact hau
      · intro hx
        by_cases hxa : x = a
        · exact Or.inr hxa
        · exact Or.inl ⟨hx, hxa⟩
    · have h1 : voteTransition "upvote" a up down = (up ++ [a], down) := by
        simp [voteTransition, hau]
        exact forall_ne_of_not_mem had
      have hmem : a ∈ up ++ [a] := by simp
      have h2 : voteTwice "upvote" a up down = (up, down) := by
        unfold voteTwice
        rw [h1]
        simp [voteTransition, hmem]
        exact ⟨forall_ne_of_not_mem hau, forall_ne_of_not_mem had⟩
      rw [h2]
      exact ⟨rfl, rfl⟩
  · rintro rfl hau
    have hu : up.filter (fun e => e ≠ a) = up := filter_ne_eq_self hau
    by_cases had : a ∈ down
    · have h1 : voteTransition "downvote" a up down =
          (up, down.filter (fun e => e ≠ a)) := by
        simp [voteTransition, had]
        exact forall_ne_of_not_mem hau
      have had2 : a ∉ down.filter (fun e => e ≠ a) := by
        rw [mem_filter_ne]
        rintro ⟨-, hne⟩
        exact hne rfl
      have h2 : voteTwice "downvote" a up down =
          (up, down.filter (fun e => e ≠ a) ++ [a]) := by
        unfold voteTwice
        rw [h1]
        simp [voteTransition, had2]
        exact forall_ne_of_not_mem hau
      rw [h2]
      refine ⟨rfl, ?_⟩
      ext x
      simp [mem_filter_ne]
      constructor
      · rintro (⟨hx, -⟩ | rfl)
        · exact hx
        · exact had
      · intro hx
        by_cases hxa : x = a
        · exact Or.inr hxa
        · exact Or.inl ⟨hx, hxa⟩
    · have h1 : voteTransition "downvote" a up down = (up, down ++ [a]) := by
        simp [voteTransition, had]
        exact forall_ne_of_not_mem hau
      have hmem : a ∈ down ++ [a] := by simp
      have h2 : voteTwice "downvote" a up down = (up, down) := by
        unfold voteTwice
        rw [h1]
        simp [voteTransition, hmem]
        exact ⟨forall_ne_of_not_mem hau, forall_ne_of_not_mem had⟩
      rw [h2]
      exact ⟨rfl, rfl⟩

/-- Witness for the amended C3 at a concrete actor already in the target
list and absent from the opposite list. -/
theorem vote_toggle_twice_inverse_witness :
    ("a@x.com" ∉ (["d@x.com"] : List String)) ∧
    ((voteTwice "upvote" "a@x.com" ["a@x.com", "u@x.com"] ["d@x.com"]).1.toFinset =
       (["a@x.com", "u@x.com"] : List String).toFinset ∧
     (voteTwice "upvote" "a@x.com" ["a@x.com", "u@x.com"] ["d@x.com"]).2 = ["d@x.com"]) :=
  ⟨by decide,
   (vote_toggle_twice_inverse "upvote" "a@x.com" ["a@x.com", "u@x.com"] ["d@x.com"]).1
     rfl (by decide)⟩

/-- C4 counterexample: the requester is not an admin, the target user exists
and already has the requested role, yet the handler answers
`Forbidden - Admins only` rather than the redundant-update error: the admin
check runs before the redundant-update guard. -/
theorem role_change_redundant_nonadmin_forbidden :
    (usersAdminHandler
       [{ name := "Alice", email := "alice@x.com", photoURL := "", role := "user",
          paymentStatus := "unpaid", createdAt := 0 },
        { name := "Bob", email := "bob@x.com", photoURL := "", role := "user",
          paymentStatus := "unpaid", createdAt := 0 }]
       "alice@x.com" "bob@x.com" "user").2 = AdminResp.forbiddenAdminsOnly ∧
    AdminResp.forbiddenAdminsOnly ≠ AdminResp.alreadyHasRole := by decide

/-- C4 amended: when the requested role equals the target's current role the
request is always denied and the store is unchanged, but the reported error
depends on the admin check, which runs first: an admin requester gets the
redundant-update error, any other requester gets `Forbidden - Admins only`. -/
theorem role_change_redundant_guard (users : List User)
    (requesterEmail email role : String) (target : User)
    (he : email ≠ "") (hr : role ≠ "")
    (hfind : users.find? (fun u => u.email = email) = some target)
    (hrole : target.role = role) :
    (usersAdminHandler users requesterEmail email role).1 = users ∧
    (isAdminUser users requesterEmail = true →
       (usersAdminHandler users requesterEmail email role).2 = AdminResp.alreadyHasRole) ∧
    (isAdminUser users requesterEmail = false →
       (usersAdminHandler users requesterEmail email role).2 =
         AdminResp.forbiddenAdminsOnly) := by
  unfold usersAdminHandler isAdminUser
  rw [if_neg (show ¬(email = "" ∨ role = "") by simp [he, hr])]
  cases hfr : users.find? (fun u => u.email = requesterEmail) with
  | none => simp
  | some requester =>
    dsimp only
    by_cases hadm : requester.role = "admin"
    · rw [if_neg (show ¬(requester.role ≠ "admin") from fun hc => hc hadm), hfind]
      dsimp only
      rw [if_pos hrole]
      simp [hadm]
    · rw [if_pos hadm]
      simp [hadm]

/-- Witness for the amended C4: an admin requester asking to re-grant their
own current role is denied with the redundant-update error. -/
theorem role_change_redundant_guard_witness :
    (("b@x.com" : String) ≠ "") ∧ (("admin" : String) ≠ "") ∧
    ([({ name := "Bob", email := "b@x.com", photoURL := "", role := "admin",
         paymentStatus := "unpaid", createdAt := 0 } : User)].find?
       (fun u => u.email = "b@x.com") =
      some { name := "Bob", email := "b@x.com", photoURL := "", role := "admin",
             paymentStatus := "unpaid", createdAt := 0 }) ∧
    ((usersAdminHandler
        [{ name := "Bob", email := "b@x.com", photoURL := "", role := "admin",
           paymentStatus := "unpaid", createdAt := 0 }]
        "b@x.com" "b@x.com" "admin").1 =
      [{ name := "Bob", email := "b@x.com", photoURL := "", role := "admin",
         paymentStatus := "unpaid", createdAt := 0 }] ∧
     (isAdminUser
        [{ name := "Bob", email := "b@x.com", photoURL := "", role := "admin",
           paymentStatus := "unpaid", createdAt := 0 }] "b@x.com" = true →
       (usersAdminHandler
          [{ name := "Bob", email := "b@x.com", photoURL := "", role := "admin",
             paymentStatus := "unpaid", createdAt := 0 }]
          "b@x.com" "b@x.com" "admin").2 = AdminResp.alreadyHasRole) ∧
     (isAdminUser
        [{ name := "Bob", email := "b@x.com", photoURL := "", role := "admin",
           paymentStatus := "unpaid", createdAt := 0 }] "b@x.com" = false →
       (usersAdminHandler
          [{ name := "Bob", email := "b@x.com", photoURL := "", role := "admin",
             paymentStatus := "unpaid", createdAt := 0 }]
          "b@x.com" "b@x.com" "admin").2 = AdminResp.forbiddenAdminsOnly)) :=
  ⟨by decide, by decide, rfl,
   role_change_redundant_guard
     [{ name := "Bob", email := "b@x.com", photoURL := "", role := "admin",
        paymentStatus := "unpaid", createdAt := 0 }]
     "b@x.com" "b@x.com" "admin"
     { name := "Bob", email := "b@x.com", photoURL := "", role := "admin",
       paymentStatus := "unpaid", createdAt := 0 }
     (by decide) (by decide) rfl rfl⟩

/-- C5 counterexample: an authenticated non-admin caller of
`PATCH /users/admin` whose target user does not exist gets
`Forbidden - Admins only`, not `NotFound`: this handler evaluates the
authorization policy before fetching the target resource. -/
theorem missing_target_forbidden_not_notfound :
    ([({ name := "Alice", email := "alice@x.com", photoURL := "", role := "user",
         paymentStatus := "unpaid", createdAt := 0 } : User)].find?
       (fun u => u.email = "bob@x.com") = none) ∧
    (usersAdminHandler
       [{ name := "Alice", email := "alice@x.com", photoURL := "", role := "user",
          paymentStatus := "unpaid", createdAt := 0 }]
       "alice@x.com" "bob@x.com" "admin").2 = AdminResp.forbiddenAdminsOnly ∧
    AdminResp.forbiddenAdminsOnly ≠ AdminResp.userNotFound := by decide

/-- C5 amended: the post and comment delete handlers fetch the target before
any policy check, so a missing target yields `NotFound` and never
`Forbidden`; `PATCH /users/admin` instead runs the admin policy check first,
so a non-admin caller receives `Forbidden` whether or not the target
exists. -/
theorem failure_check_order (posts : List Post) (users : List User)
    (comments : List Comment) (actor requesterEmail email role : String)
    (pid cid : Nat) :
    (posts.find? (fun p => p.id = pid) = none →
       deletePostHandler posts actor pid = (posts, DeleteResp.notFound)) ∧
    (comments.find? (fun c => c.id = cid) = none →
       deleteCommentHandler users comments actor cid = (comments, DeleteResp.notFound)) ∧
    (email ≠ "" → role ≠ "" → isAdminUser users requesterEmail = false →
       (usersAdminHandler users requesterEmail email role).2 =
         AdminResp.forbiddenAdminsOnly) := by
  refine ⟨fun hp => ?_, fun hc => ?_, fun he hr hadm => ?_⟩
  · unfold deletePostHandler
    rw [hp]
  · unfold deleteCommentHandler
    rw [hc]
  · unfold usersAdminHandler
    rw [if_neg (show ¬(email = "" ∨ role = "") by simp [he, hr])]
    unfold isAdminUser at hadm
    cases hfr : users.find? (fun u => u.email = requesterEmail) with
    | none => rfl
    | some requester =>
      rw [hfr] at hadm
      simp at hadm
      dsimp only
      rw [if_pos hadm]

/-- Witness for the amended C5 at empty stores and a non-admin caller. -/
theorem failure_check_order_witness :
    (([] : List Post).find? (fun p => p.id = 7) = none) ∧
    deletePostHandler [] "a@x.com" 7 = ([], DeleteResp.notFound) ∧
    (([] : List Comment).find? (fun c => c.id = 7) = none) ∧
    deleteCommentHandler
      [{ name := "Alice", email := "alice@x.com", photoURL := "", role := "user",
         paymentStatus := "unpaid", createdAt := 0 }] [] "a@x.com" 7 =
      ([], DeleteResp.notFound) ∧
    (usersAdminHandler
       [{ name := "Alice", email := "alice@x.com", photoURL := "", role := "user",
          paymentStatus := "unpaid", createdAt := 0 }]
       "alice@x.com" "bob@x.com" "admin").2 = AdminResp.forbiddenAdminsOnly := by
  have h := failure_check_order ([] : List Post)
    [{ name := "Alice", email := "alice@x.com", photoURL := "", role := "user",
       paymentStatus := "unpaid", createdAt := 0 }]
    ([] : List Comment) "a@x.com" "alice@x.com" "bob@x.com" "admin" 7 7
  exact ⟨rfl, h.1 rfl, rfl, h.2.1 rfl, h.2.2 (by decide) (by decide) (by decide)⟩

/-- C6: deleting an existing post succeeds exactly for its author, removing
the post; every other actor (the handler never consults roles, so admins
included) gets `Forbidden` and the store is unchanged. -/
theorem delete_post_author_only (posts : List Post) (actor : String) (id : Nat)
    (post : Post) (hfind : posts.find? (fun p => p.id = id) = some post) :
    (actor = post.authorEmail →
       deletePostHandler posts actor id =
         (removeFirst (fun p => p.id = id) posts, DeleteResp.success)) ∧
    (actor ≠ post.authorEmail →
       deletePostHandler posts actor id = (posts, DeleteResp.forbidden)) := by
  constructor
  · intro ha
    unfold deletePostHandler
    rw [hfind]
    dsimp only
    rw [if_neg (show ¬actor ≠ post.authorEmail from fun hc => hc ha)]
    simp [any_of_find? hfind]
  · intro ha
    unfold deletePostHandler
    rw [hfind]
    dsimp only
    rw [if_pos ha]

/-- Witness for C6: the author deletes their post; a stranger is refused. -/
theorem delete_post_author_only_witness :
    ([({ id := 1, authorEmail := "o@x.com", upVote := [], downVote := [] } : Post)].find?
       (fun p => p.id = 1) =
      some { id := 1, authorEmail := "o@x.com", upVote := [], downVote := [] }) ∧
    deletePostHandler [{ id := 1, authorEmail := "o@x.com", upVote := [], downVote := [] }]
      "o@x.com" 1 = ([], DeleteResp.success) ∧
    deletePostHandler [{ id := 1, authorEmail := "o@x.com", upVote := [], downVote := [] }]
      "evil@x.com" 1 =
      ([{ id := 1, authorEmail := "o@x.com", upVote := [], downVote := [] }],
       DeleteResp.forbidden) := by
  have h1 := (delete_post_author_only
    [{ id := 1, authorEmail := "o@x.com", upVote := [], downVote := [] }] "o@x.com" 1
    { id := 1, authorEmail := "o@x.com", upVote := [], downVote := [] } rfl).1 rfl
  have h2 := (delete_post_author_only
    [{ id := 1, authorEmail := "o@x.com", upVote := [], downVote := [] }] "evil@x.com" 1
    { id := 1, authorEmail := "o@x.com", upVote := [], downVote := [] } rfl).2 (by decide)
  exact ⟨rfl, h1, h2⟩

/-- C7: deleting an existing comment succeeds exactly for the comment's
owner or an actor whose stored role is `admin`, and then removes the
comment; anyone who is neither owner nor admin gets `Forbidden` and the
store is unchanged. -/
theorem delete_comment_owner_or_admin (users : List User) (comments : List Comment)
    (actor : String) (id : Nat) (c : Comment)
    (hfind : comments.find? (fun x => x.id = id) = some c) :
    ((actor = c.email ∨ isAdminUser users actor = true) →
       deleteCommentHandler users comments actor id =
         (removeFirst (fun x => x.id = id) comments, DeleteResp.success)) ∧
    (actor ≠ c.email → isAdminUser users actor = false →
       deleteCommentHandler users comments actor id =
         (comments, DeleteResp.forbidden)) := by
  constructor
  · intro hallow
    unfold deleteCommentHandler
    rw [hfind]
    dsimp only
    rw [if_pos hallow]
    simp [any_of_find? hfind]
  · intro hown hadm
    unfold deleteCommentHandler
    rw [hfind]
    dsimp only
    rw [if_neg (show ¬(actor = c.email ∨ isAdminUser users actor = true) by
      rintro (h | h)
      · exact hown h
      · rw [hadm] at h
        exact Bool.false_ne_true h)]

/-- Witness for C7: the owner and an admin both delete the comment; a
stranger with role `user` is refused. -/
theorem delete_comment_owner_or_admin_witness :
    ([({ id := 5, postId := 1, email := "own@x.com", message := "hi" } : Comment)].find?
       (fun x => x.id = 5) =
      some { id := 5, postId := 1, email := "own@x.com", message := "hi" }) ∧
    deleteCommentHandler
      [{ name := "Adm", email := "adm@x.com", photoURL := "", role := "admin",
         paymentStatus := "unpaid", createdAt := 0 }]
      [{ id := 5, postId := 1, email := "own@x.com", message := "hi" }] "own@x.com" 5 =
      ([], DeleteResp.success) ∧
    deleteCommentHandler
      [{ name := "Adm", email := "adm@x.com", photoURL := "", role := "admin",
         paymentStatus := "unpaid", createdAt := 0 }]
      [{ id := 5, postId := 1, email := "own@x.com", message := "hi" }] "adm@x.com" 5 =
      ([], DeleteResp.success) ∧
    deleteCommentHandler
      [{ name := "Adm", email := "adm@x.com", photoURL := "", role := "admin",
         paymentStatus := "unpaid", createdAt := 0 }]
      [{ id := 5, postId := 1, email := "own@x.com", message := "hi" }] "rand@x.com" 5 =
      ([{ id := 5, postId := 1, email := "own@x.com", message := "hi" }],
       DeleteResp.forbidden) := by
  have h1 := (delete_comment_owner_or_admin
    [{ name := "Adm", email := "adm@x.com", photoURL := "", role := "admin",
       paymentStatus := "unpaid", createdAt := 0 }]
    [{ id := 5, postId := 1, email := "own@x.com", message := "hi" }] "own@x.com" 5
    { id := 5, postId := 1, email := "own@x.com", message := "hi" } rfl).1 (Or.inl rfl)
  have h2 := (delete_comment_owner_or_admin
    [{ name := "Adm", email := "adm@x.com", photoURL := "", role := "admin",
       paymentStatus := "unpaid", createdAt := 0 }]
    [{ id := 5, postId := 1, email := "own@x.com", message := "hi" }] "adm@x.com" 5
    { id := 5, postId := 1, email := "own@x.com", message := "hi" } rfl).1
    (Or.inr (by decide))
  have h3 := (delete_comment_owner_or_admin
    [{ name := "Adm", email := "adm@x.com", photoURL := "", role := "admin",
       paymentStatus := "unpaid", createdAt := 0 }]
    [{ id := 5, postId := 1, email := "own@x.com", message := "hi" }] "rand@x.com" 5
    { id := 5, postId := 1, email := "own@x.com", message := "hi" } rfl).2
    (by decide) (by decide)
  exact ⟨rfl, h1, h2, h3⟩

/-- C8: for an existing post, a voteType other than `"upvote"` and
`"downvote"` falls through both branches: the stored vote lists are written
back unchanged and the response reports the current counts, a silent no-op
rather than an error. -/
theorem vote_unknown_type_noop (posts : List Post) (id : Nat) (vt a : String)
    (post : Post) (hfind : posts.find? (fun p => p.id = id) = some post)
    (h1 : vt ≠ "upvote") (h2 : vt ≠ "downvote") :
    voteHandler posts id vt a =
      (posts, VoteResp.counts post.upVote.length post.downVote.length) := by
  have ht : voteTransition vt a post.upVote post.downVote =
      (post.upVote, post.downVote) := by
    simp [voteTransition, h1, h2]
  unfold voteHandler
  rw [hfind]
  dsimp only
  rw [ht]
  dsimp only
  rw [updateFirst_eq_self _ _ posts post hfind rfl]

/-- Witness for C8 with voteType `"sideways"` on a post with one vote in
each list. -/
theorem vote_unknown_type_noop_witness :
    ([({ id := 1, authorEmail := "o@x.com", upVote := ["u@x.com"],
         downVote := ["d@x.com"] } : Post)].find? (fun p => p.id = 1) =
      some { id := 1, authorEmail := "o@x.com", upVote := ["u@x.com"],
             downVote := ["d@x.com"] }) ∧
    ("sideways" : String) ≠ "upvote" ∧ ("sideways" : String) ≠ "downvote" ∧
    voteHandler
      [{ id := 1, authorEmail := "o@x.com", upVote := ["u@x.com"],
         downVote := ["d@x.com"] }] 1 "sideways" "a@x.com" =
      ([{ id := 1, authorEmail := "o@x.com", upVote := ["u@x.com"],
          downVote := ["d@x.com"] }], VoteResp.counts 1 1) :=
  ⟨rfl, by decide, by decide,
   vote_unknown_type_noop
     [{ id := 1, authorEmail := "o@x.com", upVote := ["u@x.com"],
        downVote := ["d@x.com"] }] 1 "sideways" "a@x.com"
     { id := 1, authorEmail := "o@x.com", upVote := ["u@x.com"],
       downVote := ["d@x.com"] } rfl (by decide) (by decide)⟩

/-- C9: registering an email that already exists in the user store answers
`User already exists` and returns the store untouched: no stored field is
overwritten and no new document is inserted. -/
theorem register_existing_email_unchanged (users : List User)
    (name email photoURL : String) (now : Nat) (u : User)
    (he : email ≠ "")
    (hfind : users.find? (fun x => x.email = email) = some u) :
    registerHandler users name email photoURL now = (users, RegisterResp.alreadyExists) := by
  unfold registerHandler
  rw [if_neg he, hfind]

/-- Witness for C9: re-registering Bob's email with different name, photo
and time leaves the store as it was. -/
theorem register_existing_email_unchanged_witness :
    (("b@x.com" : String) ≠ "") ∧
    ([({ name := "Bob", email := "b@x.com", photoURL := "p1", role := "admin",
         paymentStatus := "paid", createdAt := 3 } : User)].find?
       (fun x => x.email = "b@x.com") =
      some { name := "Bob", email := "b@x.com", photoURL := "p1", role := "admin",
             paymentStatus := "paid", createdAt := 3 }) ∧
    registerHandler
      [{ name := "Bob", email := "b@x.com", photoURL := "p1", role := "admin",
         paymentStatus := "paid", createdAt := 3 }]
      "Robert" "b@x.com" "p2" 9 =
      ([{ name := "Bob", email := "b@x.com", photoURL := "p1", role := "admin",
          paymentStatus := "paid", createdAt := 3 }], RegisterResp.alreadyExists) :=
  ⟨by decide, rfl,
   register_existing_email_unchanged
     [{ name := "Bob", email := "b@x.com", photoURL := "p1", role := "admin",
        paymentStatus := "paid", createdAt := 3 }]
     "Robert" "b@x.com" "p2" 9
     { name := "Bob", email := "b@x.com", photoURL := "p1", role := "admin",
       paymentStatus := "paid", createdAt := 3 } (by decide) rfl⟩

/-- C10: the payment-status update reads only the request-body email, never
the authenticated caller, so any two callers submitting the same body get
identical results; a missing or already-paid target yields the not-found
failure with the store unchanged, and an existing unpaid target has its
paymentStatus set to `paid` by whoever calls. -/
theorem payment_status_caller_independent (users : List User)
    (caller1 caller2 email : String) :
    paymentStatusHandler users caller1 email = paymentStatusHandler users caller2 email ∧
    (email ≠ "" → users.find? (fun x => x.email = email) = none →
       paymentStatusHandler users caller1 email = (users, PayResp.notFoundOrPaid)) ∧
    (∀ u, email ≠ "" → users.find? (fun x => x.email = email) = some u →
       u.paymentStatus = "paid" →
       paymentStatusHandler users caller1 email = (users, PayResp.notFoundOrPaid)) ∧
    (∀ u, email ≠ "" → users.find? (fun x => x.email = email) = some u →
       u.paymentStatus ≠ "paid" →
       paymentStatusHandler users caller1 email =
         (updateFirst (fun x => x.email = email)
            (fun x => { x with paymentStatus := "paid" }) users, PayResp.updated)) := by
  refine ⟨rfl, fun he hn => ?_, fun u he hf hp => ?_, fun u he hf hp => ?_⟩
  · unfold paymentStatusHandler mongoUpdateOne
    rw [if_neg he]
    dsimp only
    rw [hn]
    simp
  · have hfu : ({ u with paymentStatus := "paid" } : User) = u := by
      cases u
      simp_all
    unfold paymentStatusHandler mongoUpdateOne
    rw [if_neg he]
    dsimp only
    rw [hf]
    dsimp only
    rw [if_pos hfu]
    simp
  · have hfu : ({ u with paymentStatus := "paid" } : User) ≠ u :=
      fun hc => hp ((congrArg User.paymentStatus hc).symm ▸ rfl)
    unfold paymentStatusHandler mongoUpdateOne
    rw [if_neg he]
    dsimp only
    rw [hf]
    dsimp only
    rw [if_neg hfu]
    simp

/-- Witness for C10: two different callers submit the same body for an
unpaid Bob; both runs agree and Bob becomes paid. -/
theorem payment_status_caller_independent_witness :
    paymentStatusHandler
      [{ name := "Bob", email := "b@x.com", photoURL := "", role := "user",
         paymentStatus := "unpaid", createdAt := 0 }] "x@x.com" "b@x.com" =
      paymentStatusHandler
        [{ name := "Bob", email := "b@x.com", photoURL := "", role := "user",
           paymentStatus := "unpaid", createdAt := 0 }] "y@x.com" "b@x.com" ∧
    paymentStatusHandler
      [{ name := "Bob", email := "b@x.com", photoURL := "", role := "user",
         paymentStatus := "unpaid", createdAt := 0 }] "x@x.com" "b@x.com" =
      ([{ name := "Bob", email := "b@x.com", photoURL := "", role := "user",
          paymentStatus := "paid", createdAt := 0 }], PayResp.updated) := by
  have h := payment_status_caller_independent
    [{ name := "Bob", email := "b@x.com", photoURL := "", role := "user",
       paymentStatus := "unpaid", createdAt := 0 }] "x@x.com" "y@x.com" "b@x.com"
  refine ⟨h.1, ?_⟩
  have h2 := h.2.2.2
    { name := "Bob", email := "b@x.com", photoURL := "", role := "user",
      paymentStatus := "unpaid", createdAt := 0 } (by decide) rfl (by decide)
  simpa using h2

end DevConnect
